import Mathlib

/-!
Shallow embedding of the service-worker cache manager of the
Neural Style Memory Book repository (file sw.js), together with
theorems settling the specification's claims about it.

Modelling conventions:
- A cache store is the Cache API request-response list, kept in
  insertion order (oldest first); a put of an existing key removes the
  old pair and appends the new one at the end, as the Cache API batch
  operation does.
- A network fetch outcome is an Option Response: some r means the fetch
  resolved with response r (whose ok flag may be false), none means the
  fetch rejected (threw).
- Async handler outcomes are the inductive HRes: resolved with a
  response, resolved with undefined, or rejected.
- Timestamps are naturals (milliseconds); the sw-cache-time header is an
  Option Nat field on a response, none when the header is absent.
-/

namespace SW

/-- A network or cached response. Only the fields the cache manager
inspects are modelled: the ok flag, the HTTP status, the body, and the
sw-cache-time header stamped by cacheResponse (absent on raw network
responses, since servers do not send it). -/
structure Response where
  ok : Bool
  status : Nat
  body : String
  swCacheTime : Option Nat
deriving DecidableEq

/-- A cache store: the Cache API request-response list in insertion
order (oldest first), keyed by URL string. -/
abbrev Store := List (String × Response)

/-- Outcome of an async handler: resolved with a response, resolved
with the undefined value, or rejected with an error. -/
inductive HRes where
  | resp (r : Response)
  | undef
  | thrown
deriving DecidableEq

/-- Result of running one caching strategy: the handler outcome, the
resulting store contents, and whether a network fetch was attempted. -/
structure StratResult where
  res : HRes
  store : Store
  fetched : Bool
deriving DecidableEq

/-- The five strategy names of CACHE_STRATEGIES (sw.js 74-80). -/
inductive Strategy where
  | CACHE_FIRST
  | NETWORK_FIRST
  | STALE_WHILE_REVALIDATE
  | NETWORK_ONLY
  | CACHE_ONLY
deriving DecidableEq

/-- The request destination hint inspected by handleOfflineFallback
(sw.js 402, 457): document, image, or anything else. -/
inductive Destination where
  | document
  | image
  | other
deriving DecidableEq

/-- One entry of ROUTE_CONFIG minus its pattern (sw.js 83-119): a
strategy, a target cache name, a max age in milliseconds, and a max
entry count. -/
structure RouteCfg where
  strategy : Strategy
  cacheName : String
  maxAge : Nat
  maxEntries : Nat
deriving DecidableEq

/-- The two pieces of a parsed URL that findMatchingRoute tests
patterns against (sw.js 333): url.pathname and url.href. -/
structure UrlParts where
  pathname : String
  href : String

/-- Outcome of the install event handler (sw.js 123-153): whether the
waitUntil promise rejected, whether skipWaiting was reached, and the
resulting static and model stores. -/
structure InstallResult where
  promiseRejected : Bool
  skipWaitingCalled : Bool
  staticStore : Store
  modelStore : Store
deriving DecidableEq

/-- Cache name constant STATIC_CACHE (sw.js 45). -/
def STATIC_CACHE : String := "neural-static-v1.2.0"

/-- Cache name constant DYNAMIC_CACHE (sw.js 46). -/
def DYNAMIC_CACHE : String := "neural-dynamic-v1.2.0"

/-- Cache name constant MODEL_CACHE (sw.js 47). -/
def MODEL_CACHE : String := "neural-models-v1.2.0"

/-- Cache name constant IMAGE_CACHE (sw.js 48). -/
def IMAGE_CACHE : String := "neural-images-v1.2.0"

/-- cache.match: first entry with the given key (keys are unique, so
first is the only one). -/
def lookupStore : Store → String → Option Response
  | [], _ => none
  | p :: rest, key => if p.1 = key then some p.2 else lookupStore rest key

/-- Removal of every pair with the given key, the delete half of the
Cache API batch put operation. -/
def eraseKey : Store → String → Store
  | [], _ => []
  | p :: rest, key =>
      if p.1 = key then eraseKey rest key else p :: eraseKey rest key

/-- cache.put: remove any existing entry for the key, then append the
new pair at the end of the request-response list. -/
def putStore (st : Store) (key : String) (r : Response) : Store :=
  eraseKey st key ++ [(key, r)]

/-- cacheResponse (sw.js 347-359): rebuild the response with the
sw-cache-time header set to the current time before storing it. -/
def stamp (r : Response) (now : Nat) : Response :=
  { r with swCacheTime := some now }

/-- cleanupCache (sw.js 361-377): no-op when maxEntries is unset
(falsy); otherwise, when the key count exceeds maxEntries, delete the
oldest count - maxEntries entries, keys.slice(0, count - maxEntries). -/
def cleanupCache (st : Store) (maxEntries : Nat) : Store :=
  if maxEntries = 0 then st
  else if st.length > maxEntries then st.drop (st.length - maxEntries)
  else st

/-- The shared fetch-and-fall-back tail of cacheFirst (sw.js 258-270):
on a resolved fetch, write the response through the stamping path when
ok and return it; on a rejected fetch, return the previously looked-up
cached response when there was one, else rethrow. -/
def cacheFirstFetch (now : Nat) (fetchResult : Option Response)
    (st : Store) (key : String) (cachedResponse : Option Response) :
    StratResult :=
  match fetchResult with
  | some r =>
      if r.ok then ⟨HRes.resp r, putStore st key (stamp r now), true⟩
      else ⟨HRes.resp r, st, true⟩
  | none =>
      match cachedResponse with
      | some c => ⟨HRes.resp c, st, true⟩
      | none => ⟨HRes.thrown, st, true⟩

/-- cacheFirst (sw.js 244-271). The freshness test is the negation of
isExpired, where isExpired is now - cacheTime > maxAge and cacheTime
defaults to epoch 0 when the sw-cache-time header is missing; so the
cached entry is served without network exactly when
now - cacheTime <= maxAge. -/
def cacheFirst (now maxAge : Nat) (fetchResult : Option Response)
    (st : Store) (key : String) : StratResult :=
  match lookupStore st key with
  | some cached =>
      if now - cached.swCacheTime.getD 0 ≤ maxAge then
        ⟨HRes.resp cached, st, false⟩
      else cacheFirstFetch now fetchResult st key (some cached)
  | none => cacheFirstFetch now fetchResult st key none

/-- networkFirst (sw.js 273-290): always fetch; on a resolved fetch,
write through the stamping path when ok and return the response; on a
rejected fetch, serve the cached entry when present, else rethrow. The
maxAge parameter is accepted and unused, as in the source. -/
def networkFirst (now maxAge : Nat) (fetchResult : Option Response)
    (st : Store) (key : String) : StratResult :=
  match fetchResult with
  | some r =>
      if r.ok then ⟨HRes.resp r, putStore st key (stamp r now), true⟩
      else ⟨HRes.resp r, st, true⟩
  | none =>
      match lookupStore st key with
      | some c => ⟨HRes.resp c, st, true⟩
      | none => ⟨HRes.thrown, st, true⟩

/-- staleWhileRevalidate (sw.js 292-315): the network promise writes an
ok response through the stamping path and resolves with the response;
its catch swallows a rejection, resolving with undefined. A cached
entry, looked up before the fetch settles, is returned when present;
otherwise the caller awaits the network promise. The maxAge parameter
is accepted and unused, as in the source. -/
def staleWhileRevalidate (now maxAge : Nat) (fetchResult : Option Response)
    (st : Store) (key : String) : StratResult :=
  let st1 : Store :=
    match fetchResult with
    | some r => if r.ok then putStore st key (stamp r now) else st
    | none => st
  match lookupStore st key with
  | some cached => ⟨HRes.resp cached, st1, true⟩
  | none =>
      match fetchResult with
      | some r => ⟨HRes.resp r, st1, true⟩
      | none => ⟨HRes.undef, st1, true⟩

/-- cacheOnly (sw.js 317-326): serve the cached entry or throw; no
fetch, no write. -/
def cacheOnly (st : Store) (key : String) : StratResult :=
  match lookupStore st key with
  | some c => ⟨HRes.resp c, st, false⟩
  | none => ⟨HRes.thrown, st, false⟩

/-- The synthesized inline offline page of handleOfflineFallback
(sw.js 411-453), status 200, body abbreviated to a tag. -/
def offlinePage : Response :=
  { ok := true, status := 200, body := "offline-page-html", swCacheTime := none }

/-- The synthesized inline image placeholder of handleOfflineFallback
(sw.js 457-462), default status 200, body abbreviated to a tag. -/
def imagePlaceholder : Response :=
  { ok := true, status := 200, body := "placeholder-svg", swCacheTime := none }

/-- handleOfflineFallback (sw.js 398-466): for a document destination,
serve the cached root page, else the cached index page, else the inline
offline page; for an image destination, serve the inline placeholder;
for any other destination, throw. -/
def handleOfflineFallback (dest : Destination) (staticStore : Store) : HRes :=
  match dest with
  | Destination.document =>
      match lookupStore staticStore "/" with
      | some page => HRes.resp page
      | none =>
          match lookupStore staticStore "/index.html" with
          | some page => HRes.resp page
          | none => HRes.resp offlinePage
  | Destination.image => HRes.resp imagePlaceholder
  | Destination.other => HRes.thrown

/-- handleRequest (sw.js 212-242): dispatch on the strategy; a thrown
strategy outcome is caught and delegated to handleOfflineFallback
(whose own throw propagates); the finally block runs cleanupCache on
the policy's store unconditionally. Returns the handler outcome and the
final contents of the policy's store. -/
def handleRequest (strategy : Strategy) (now maxAge maxEntries : Nat)
    (fetchResult : Option Response) (st staticStore : Store)
    (key : String) (dest : Destination) : HRes × Store :=
  let sr : StratResult :=
    match strategy with
    | Strategy.CACHE_FIRST => cacheFirst now maxAge fetchResult st key
    | Strategy.NETWORK_FIRST => networkFirst now maxAge fetchResult st key
    | Strategy.STALE_WHILE_REVALIDATE =>
        staleWhileRevalidate now maxAge fetchResult st key
    | Strategy.NETWORK_ONLY =>
        match fetchResult with
        | some r => ⟨HRes.resp r, st, true⟩
        | none => ⟨HRes.thrown, st, true⟩
    | Strategy.CACHE_ONLY => cacheOnly st key
  let res : HRes :=
    match sr.res with
    | HRes.thrown => handleOfflineFallback dest staticStore
    | x => x
  (res, cleanupCache sr.store maxEntries)

/-- Character-list test: the second list is an initial segment of the
first. -/
def listStartsWith : List Char → List Char → Bool
  | _, [] => true
  | [], _ :: _ => false
  | a :: s, b :: t => a == b && listStartsWith s t

/-- Character-list test: the second list occurs contiguously somewhere
in the first. -/
def listHasSub : List Char → List Char → Bool
  | [], sub => sub.isEmpty
  | a :: t, sub => listStartsWith (a :: t) sub || listHasSub t sub

/-- String suffix test, used to embed the dollar-anchored extension
alternations of ROUTE_CONFIG. -/
def strEndsWith (s suf : String) : Bool :=
  listStartsWith s.toList.reverse suf.toList.reverse

/-- String substring test, used to embed the unanchored keyword
alternations of ROUTE_CONFIG. -/
def strContainsSub (s sub : String) : Bool :=
  listHasSub s.toList sub.toList

/-- The static route pattern (sw.js 85): extension css, js, png, jpg,
jpeg, svg, woff, woff2, ttf or eot at end of string. -/
def staticPattern (s : String) : Bool :=
  strEndsWith s ".css" || strEndsWith s ".js" || strEndsWith s ".png" ||
  strEndsWith s ".jpg" || strEndsWith s ".jpeg" || strEndsWith s ".svg" ||
  strEndsWith s ".woff" || strEndsWith s ".woff2" || strEndsWith s ".ttf" ||
  strEndsWith s ".eot"

/-- The models route pattern (sw.js 92): keyword tensorflow, blazeface
or mobilenet anywhere in the string. -/
def modelsPattern (s : String) : Bool :=
  strContainsSub s "tensorflow" || strContainsSub s "blazeface" ||
  strContainsSub s "mobilenet"

/-- The images route pattern (sw.js 99): extension jpg, jpeg, png, webp
or gif at end of string. -/
def imagesPattern (s : String) : Bool :=
  strEndsWith s ".jpg" || strEndsWith s ".jpeg" || strEndsWith s ".png" ||
  strEndsWith s ".webp" || strEndsWith s ".gif"

/-- The api route pattern (sw.js 106): the segment /api/ anywhere in
the string. -/
def apiPattern (s : String) : Bool :=
  strContainsSub s "/api/"

/-- The html route pattern (sw.js 113): extension .html at end of
string, or a trailing slash. -/
def htmlPattern (s : String) : Bool :=
  strEndsWith s ".html" || strEndsWith s "/"

/-- ROUTE_CONFIG.static (sw.js 84-90). -/
def ROUTE_static : RouteCfg :=
  { strategy := Strategy.CACHE_FIRST, cacheName := STATIC_CACHE,
    maxAge := 7 * 24 * 60 * 60 * 1000, maxEntries := 100 }

/-- ROUTE_CONFIG.models (sw.js 91-97). -/
def ROUTE_models : RouteCfg :=
  { strategy := Strategy.CACHE_FIRST, cacheName := MODEL_CACHE,
    maxAge := 30 * 24 * 60 * 60 * 1000, maxEntries := 20 }

/-- ROUTE_CONFIG.images (sw.js 98-104). -/
def ROUTE_images : RouteCfg :=
  { strategy := Strategy.STALE_WHILE_REVALIDATE, cacheName := IMAGE_CACHE,
    maxAge := 7 * 24 * 60 * 60 * 1000, maxEntries := 200 }

/-- ROUTE_CONFIG.api (sw.js 105-111). -/
def ROUTE_api : RouteCfg :=
  { strategy := Strategy.NETWORK_FIRST, cacheName := DYNAMIC_CACHE,
    maxAge := 5 * 60 * 1000, maxEntries := 50 }

/-- ROUTE_CONFIG.html (sw.js 112-118). -/
def ROUTE_html : RouteCfg :=
  { strategy := Strategy.NETWORK_FIRST, cacheName := DYNAMIC_CACHE,
    maxAge := 24 * 60 * 60 * 1000, maxEntries := 20 }

/-- The default route of findMatchingRoute (sw.js 339-344). -/
def ROUTE_default : RouteCfg :=
  { strategy := Strategy.NETWORK_FIRST, cacheName := DYNAMIC_CACHE,
    maxAge := 5 * 60 * 1000, maxEntries := 50 }

/-- The ordered route table, in the declaration order of ROUTE_CONFIG,
which Object.entries preserves: static, models, images, api, html. -/
def routeRules : List ((String → Bool) × RouteCfg) :=
  [(staticPattern, ROUTE_static), (modelsPattern, ROUTE_models),
   (imagesPattern, ROUTE_images), (apiPattern, ROUTE_api),
   (htmlPattern, ROUTE_html)]

/-- findMatchingRoute (sw.js 330-345): first rule whose pattern matches
the pathname or the full href wins; otherwise the default route. -/
def findMatchingRoute (url : UrlParts) : RouteCfg :=
  match routeRules.find? (fun rule => rule.1 url.pathname || rule.1 url.href) with
  | some rule => rule.2
  | none => ROUTE_default

/-- cache.addAll succeeds iff every manifest URL's fetch resolved with
an ok response (it is an atomic batch: on any failure it rejects and
writes nothing). -/
def addAllOk (results : List (String × Option Response)) : Bool :=
  results.all fun p =>
    match p.2 with
    | some r => r.ok
    | none => false

/-- The batch write performed by a successful cache.addAll: put every
fetched response, unstamped. -/
def putAll (st : Store) (results : List (String × Option Response)) : Store :=
  results.foldl
    (fun acc p =>
      match p.2 with
      | some r => putStore acc p.1 r
      | none => acc)
    st

/-- The best-effort model write used both by the install handler
(sw.js 135-141) and by prefetchModels (sw.js 604-626): for each URL,
put the response verbatim via cache.put when the fetch resolved ok;
swallow every failure. No stamping path is involved. -/
def prefetchModels (results : List (String × Option Response)) (st : Store) :
    Store :=
  results.foldl
    (fun acc p =>
      match p.2 with
      | some r => if r.ok then putStore acc p.1 r else acc
      | none => acc)
    st

/-- The install event handler body (sw.js 123-153), run against fetch
outcomes for the static manifest and the model URL list. The whole body
sits in a try/catch whose catch only logs, so the waitUntil promise
never rejects: when addAll fails, the handler stops (skipWaiting and
the model step are skipped) but the install still completes. -/
def installStep (staticResults modelResults : List (String × Option Response)) :
    InstallResult :=
  if addAllOk staticResults then
    { promiseRejected := false
      skipWaitingCalled := true
      staticStore := putAll [] staticResults
      modelStore := prefetchModels modelResults [] }
  else
    { promiseRejected := false
      skipWaitingCalled := false
      staticStore := []
      modelStore := [] }

/-- One write followed by the eviction step: put the stamped response,
then run cleanupCache (the finally block of handleRequest). -/
def writeThenEvict (now maxEntries : Nat) (st : Store)
    (w : String × Response) : Store :=
  cleanupCache (putStore st w.1 (stamp w.2 now)) maxEntries

/-- A whole sequence of write+evict cycles starting from an initial
store. -/
def runWrites (now maxEntries : Nat) (init : Store)
    (writes : List (String × Response)) : Store :=
  writes.foldl (writeThenEvict now maxEntries) init

/-- Sample cached entry stamped at time 0, for concrete evaluations. -/
def cachedHit : Response :=
  { ok := true, status := 200, body := "cached", swCacheTime := some 0 }

/-- Sample ok network response, for concrete evaluations. -/
def netResp : Response :=
  { ok := true, status := 200, body := "fresh", swCacheTime := none }

/-- Sample ok model response without a stamp, for concrete
evaluations. -/
def modelResp : Response :=
  { ok := true, status := 200, body := "model-js", swCacheTime := none }

/-- Sample ok response for the index page, for concrete evaluations. -/
def okHtml : Response :=
  { ok := true, status := 200, body := "html", swCacheTime := none }

/-- Sample ok response for a script, for concrete evaluations. -/
def okJs : Response :=
  { ok := true, status := 200, body := "js", swCacheTime := none }

/-- Sample pre-existing store entry a, for concrete evaluations. -/
def respA : Response :=
  { ok := true, status := 200, body := "a", swCacheTime := some 1 }

/-- Sample pre-existing store entry b, for concrete evaluations. -/
def respB : Response :=
  { ok := true, status := 200, body := "b", swCacheTime := some 2 }

/-- Sample non-ok (404) network response, for concrete evaluations. -/
def notFoundResp : Response :=
  { ok := false, status := 404, body := "not-found", swCacheTime := none }

/-- The literal test URL of the route-priority claim. -/
def logoUrl : UrlParts :=
  { pathname := "/app/logo.png", href := "https://cdn.example/app/logo.png" }

/-- Looking up a key right after putting it yields the value just put. -/
theorem lookup_put_self (st : Store) (key : String) (r : Response) :
    lookupStore (putStore st key r) key = some r := by
  unfold putStore
  induction st with
  | nil => simp [eraseKey, lookupStore]
  | cons p rest ih =>
      by_cases h : p.1 = key
      · simpa [eraseKey, h] using ih
      · simpa [eraseKey, h, lookupStore] using ih

/-- For a positive bound, cleanupCache keeps exactly the suffix after
dropping the oldest length - maxEntries entries (a no-op when already
within bound, since the subtraction truncates at zero). -/
theorem cleanupCache_eq_drop (st : Store) (maxEntries : Nat)
    (h : 0 < maxEntries) :
    cleanupCache st maxEntries = st.drop (st.length - maxEntries) := by
  unfold cleanupCache
  split_ifs with h0 h1
  · omega
  · rfl
  · have hz : st.length - maxEntries = 0 := by omega
    rw [hz, List.drop_zero]

/-- For a positive bound, the store holds at most maxEntries entries
after cleanupCache. -/
theorem cleanupCache_length_le (st : Store) (maxEntries : Nat)
    (h : 0 < maxEntries) :
    (cleanupCache st maxEntries).length ≤ maxEntries := by
  rw [cleanupCache_eq_drop st maxEntries h, List.length_drop]
  omega

/-- One write+evict cycle leaves at most maxEntries entries. -/
theorem writeThenEvict_length_le (now maxEntries : Nat) (st : Store)
    (w : String × Response) (h : 0 < maxEntries) :
    (writeThenEvict now maxEntries st w).length ≤ maxEntries :=
  cleanupCache_length_le _ _ h

/-- After a nonempty sequence of write+evict cycles the store holds at
most maxEntries entries. -/
theorem runWrites_length_le (now maxEntries : Nat) (h : 0 < maxEntries) :
    ∀ (writes : List (String × Response)) (init : Store), writes ≠ [] →
      (runWrites now maxEntries init writes).length ≤ maxEntries := by
  intro writes
  induction writes with
  | nil => intro init hw; exact absurd rfl hw
  | cons w ws ih =>
      intro init _
      cases ws with
      | nil =>
          simpa [runWrites] using
            writeThenEvict_length_le now maxEntries init w h
      | cons w2 ws2 =>
          have hstep : runWrites now maxEntries init (w :: w2 :: ws2)
              = runWrites now maxEntries
                  (writeThenEvict now maxEntries init w) (w2 :: ws2) := rfl
          rw [hstep]
          exact ih _ (by simp)

/-- Whenever cacheFirst reaches its fetch tail, a network fetch is
attempted (the fetched flag is set on every branch of the tail). -/
theorem cacheFirstFetch_fetched (now : Nat) (fetchResult : Option Response)
    (st : Store) (key : String) (cachedResponse : Option Response) :
    (cacheFirstFetch now fetchResult st key cachedResponse).fetched = true := by
  unfold cacheFirstFetch
  cases fetchResult with
  | some r => by_cases hr : r.ok <;> simp [hr]
  | none => cases cachedResponse <;> rfl

/-- Claim C1, counterexample. At lookup time t = 5 with an entry stamped
at t0 = 0 under maxAge d = 5 we have t = t0 + d, so the claim demands a
network fetch; but cacheFirst serves the cached entry with no fetch,
because the source tests now - cacheTime > maxAge, making an entry
whose age equals maxAge still fresh. -/
theorem cacheFirst_boundary_counterexample :
    cacheFirst 5 5 (some netResp) [("k", cachedHit)] "k"
      = ⟨HRes.resp cachedHit, [("k", cachedHit)], false⟩ := by
  rfl

/-- Claim C1, amended: for a cached entry stamped at t0 under maxAge d,
cacheFirst returns the entry with no network fetch for any lookup time
t ≤ t0 + d, and attempts a network fetch for any t > t0 + d; an entry
is fresh iff its age is at most maxAge (non-strict). -/
theorem cacheFirst_freshness (t t0 d : Nat) (e : Response) (st : Store)
    (key : String) (fetchResult : Option Response)
    (he : lookupStore st key = some e) (ht : e.swCacheTime = some t0) :
    (t ≤ t0 + d →
      cacheFirst t d fetchResult st key = ⟨HRes.resp e, st, false⟩) ∧
    (t0 + d < t → (cacheFirst t d fetchResult st key).fetched = true) := by
  constructor
  · intro hle
    have hage : t - e.swCacheTime.getD 0 ≤ d := by
      rw [ht]; simp [Option.getD]; omega
    simp [cacheFirst, he, hage]
  · intro hlt
    have hage : ¬ t - e.swCacheTime.getD 0 ≤ d := by
      rw [ht]; simp [Option.getD]; omega
    simp [cacheFirst, he, hage, cacheFirstFetch_fetched]

/-- Claim C1, witness for the amended theorem at t = 3, t0 = 0, d = 5. -/
theorem cacheFirst_freshness_witness :
    cacheFirst 3 5 (some netResp) [("k", cachedHit)] "k"
      = ⟨HRes.resp cachedHit, [("k", cachedHit)], false⟩ :=
  (cacheFirst_freshness 3 0 5 cachedHit [("k", cachedHit)] "k"
    (some netResp) (by rfl) (by rfl)).1 (by omega)

/-- Claim C2: for every nonempty sequence of writes to a store whose
policy has maxEntries = N > 0, after the eviction step following the
last write the store holds at most N entries, and each write+evict step
keeps exactly the suffix of the insertion-ordered list after dropping
the oldest count - N entries, i.e. the N most-recently-inserted keys,
removed in FIFO order. -/
theorem store_bounded_after_writes (maxEntries now : Nat) (init : Store)
    (writes : List (String × Response)) (hN : 0 < maxEntries)
    (hw : writes ≠ []) :
    (runWrites now maxEntries init writes).length ≤ maxEntries ∧
    ∀ (st : Store) (w : String × Response),
      writeThenEvict now maxEntries st w
        = (putStore st w.1 (stamp w.2 now)).drop
            ((putStore st w.1 (stamp w.2 now)).length - maxEntries) := by
  refine ⟨runWrites_length_le now maxEntries hN writes init hw, ?_⟩
  intro st w
  exact cleanupCache_eq_drop _ _ hN

/-- Claim C2, witness: two writes under maxEntries = 1 leave one entry. -/
theorem store_bounded_after_writes_witness :
    (runWrites 0 1 [] [("a", respA), ("b", respB)]).length ≤ 1 ∧
    ∀ (st : Store) (w : String × Response),
      writeThenEvict 0 1 st w
        = (putStore st w.1 (stamp w.2 0)).drop
            ((putStore st w.1 (stamp w.2 0)).length - 1) :=
  store_bounded_after_writes 1 0 [] [("a", respA), ("b", respB)]
    (by omega) (by simp)

/-- Claim C3: evaluation of the install handler at the failing input of
the claim. With the manifest fetches for /index.html and /app.js
resolving ok and the fetch for /missing.js rejecting, the handler's
catch swallows the error: the waitUntil promise does not reject (the
install step completes and the version becomes installed), skipWaiting
is skipped, and no entries are written. The claim says the install
step's completion promise rejects, which the code contradicts. -/
theorem install_swallows_failure :
    installStep
        [("/index.html", some okHtml), ("/app.js", some okJs),
         ("/missing.js", none)] []
      = { promiseRejected := false, skipWaitingCalled := false,
          staticStore := [], modelStore := [] } := by
  rfl

/-- Claim C4: under CACHE_FIRST and NETWORK_FIRST, when the network
fetch rejects, the cached entry is returned whenever the store has one
for the key (regardless of its age), and the failure propagates exactly
when the store has none. -/
theorem serve_stale_on_error (now maxAge : Nat) (st : Store) (key : String) :
    (∀ c, lookupStore st key = some c →
      (cacheFirst now maxAge none st key).res = HRes.resp c ∧
      (networkFirst now maxAge none st key).res = HRes.resp c) ∧
    (lookupStore st key = none →
      (cacheFirst now maxAge none st key).res = HRes.thrown ∧
      (networkFirst now maxAge none st key).res = HRes.thrown) := by
  constructor
  · intro c hc
    constructor
    · by_cases hage : now - c.swCacheTime.getD 0 ≤ maxAge <;>
        simp [cacheFirst, hc, hage, cacheFirstFetch]
    · simp [networkFirst, hc]
  · intro hc
    constructor
    · simp [cacheFirst, hc, cacheFirstFetch]
    · simp [networkFirst, hc]

/-- Claim C4, witness: stale entry served on fetch rejection, and
propagation on an empty store. -/
theorem serve_stale_on_error_witness :
    (cacheFirst 9 5 none [("k", cachedHit)] "k").res = HRes.resp cachedHit ∧
    (networkFirst 9 5 none [] "k").res = HRes.thrown :=
  ⟨((serve_stale_on_error 9 5 [("k", cachedHit)] "k").1 cachedHit
      (by rfl)).1,
   ((serve_stale_on_error 9 5 [] "k").2 (by rfl)).2⟩

/-- Claim C5: evaluation of staleWhileRevalidate at the failing input of
the claim. With no cached entry for the key and a rejecting network
fetch, the handler resolves with the undefined value instead of
delivering the fetch's failure: the catch attached to the network
promise swallows the rejection, so the awaited promise resolves with
undefined, never with HRes.thrown. The claim says the failure reaches
the caller, which the code contradicts. -/
theorem swr_swallows_failure :
    staleWhileRevalidate 0 0 none [] "k" = ⟨HRes.undef, [], true⟩ := by
  rfl

/-- Claim C6, counterexample. An ok model response prefetched through
prefetchModels is stored verbatim by cache.put: the entry in the model
store carries no sw-cache-time stamp, so it was not written through the
stamping path cacheResponse, refuting the claim that every entry in
every store records insertedAt at write time. -/
theorem prefetch_unstamped_counterexample :
    lookupStore (prefetchModels [("m", some modelResp)] []) "m"
        = some modelResp ∧
    modelResp.swCacheTime = none := by
  exact ⟨rfl, rfl⟩

/-- Claim C6, amended: entries written by the strategy write path
(cacheResponse) are stamped with insertedAt equal to the write time;
but install-time model pre-caching and the prefetch-models command
write ok responses verbatim via cache.put, bypassing the stamping path,
so their entries keep whatever sw-cache-time the network response had
(none from a real server, read back as epoch 0 by the freshness
check). -/
theorem stamping_paths (now : Nat) (st : Store) (key : String)
    (r : Response) (staticResults : List (String × Option Response)) :
    ((stamp r now).swCacheTime = some now ∧
      lookupStore (putStore st key (stamp r now)) key = some (stamp r now)) ∧
    (r.ok = true →
      lookupStore (prefetchModels [(key, some r)] st) key = some r) ∧
    (r.ok = true → addAllOk staticResults = true →
      lookupStore (installStep staticResults [(key, some r)]).modelStore key
        = some r) := by
  refine ⟨⟨rfl, lookup_put_self st key (stamp r now)⟩, ?_, ?_⟩
  · intro hok
    simp [prefetchModels, hok, lookup_put_self]
  · intro hok hall
    simp [installStep, hall, prefetchModels, hok, lookup_put_self]

/-- Claim C6, witness for the amended theorem on a concrete model
response and a one-line manifest. -/
theorem stamping_paths_witness :
    ((stamp modelResp 7).swCacheTime = some 7 ∧
      lookupStore (putStore [] "m" (stamp modelResp 7)) "m"
        = some (stamp modelResp 7)) ∧
    lookupStore (prefetchModels [("m", some modelResp)] []) "m"
        = some modelResp ∧
    lookupStore
        (installStep [("/index.html", some okHtml)]
          [("m", some modelResp)]).modelStore "m"
      = some modelResp := by
  have h := stamping_paths 7 [] "m" modelResp [("/index.html", some okHtml)]
  exact ⟨h.1, h.2.1 (by rfl), h.2.2 (by rfl) (by rfl)⟩

/-- Claim C7, counterexample. For a request whose destination is
neither document nor image, handleOfflineFallback throws instead of
returning a Response, refuting the claim that it never raises a
failure. -/
theorem fallback_throws_counterexample :
    handleOfflineFallback Destination.other [] = HRes.thrown := by
  rfl

/-- Claim C7, amended: handleOfflineFallback returns a Response for
every document-destination and image-destination request (a cached
page, the inline offline page, or the inline placeholder), and throws
exactly for every other destination. -/
theorem fallback_by_destination (staticStore : Store) (dest : Destination) :
    (dest ≠ Destination.other →
      ∃ r, handleOfflineFallback dest staticStore = HRes.resp r) ∧
    handleOfflineFallback Destination.other staticStore = HRes.thrown := by
  constructor
  · intro h
    cases dest with
    | document =>
        unfold handleOfflineFallback
        cases h1 : lookupStore staticStore "/" with
        | some page => exact ⟨page, by simp [h1]⟩
        | none =>
            cases h2 : lookupStore staticStore "/index.html" with
            | some page => exact ⟨page, by simp [h1, h2]⟩
            | none => exact ⟨offlinePage, by simp [h1, h2]⟩
    | image => exact ⟨imagePlaceholder, rfl⟩
    | other => exact absurd rfl h
  · rfl

/-- Claim C7, witness for the amended theorem: a document request
against an empty static store still gets a Response. -/
theorem fallback_by_destination_witness :
    ∃ r, handleOfflineFallback Destination.document [] = HRes.resp r :=
  (fallback_by_destination [] Destination.document).1 (by decide)

/-- Claim C8, counterexample. A NETWORK_ONLY request handled by
handleRequest with maxEntries = 1 against a store holding two entries:
the fetch's result is returned verbatim, but the unconditional cleanup
in the finally block opens the policy's store and evicts the oldest
entry, so the store's contents change, refuting the claim that no
store is touched and every store is left unchanged. -/
theorem networkOnly_evicts_counterexample :
    handleRequest Strategy.NETWORK_ONLY 0 0 1 (some netResp)
        [("a", respA), ("b", respB)] [] "k" Destination.other
      = (HRes.resp netResp, [("b", respB)]) ∧
    ([("b", respB)] : Store) ≠ [("a", respA), ("b", respB)] := by
  constructor
  · rfl
  · simp

/-- Claim C8, amended: under NETWORK_ONLY the strategy itself performs
no store read or write and a resolved fetch's response is returned
verbatim; but handleRequest's finally block still runs cleanupCache on
the policy's store (which may evict oldest entries when the store
exceeds maxEntries), and a rejected fetch is routed to the offline
fallback instead of being rethrown verbatim. -/
theorem networkOnly_behaviour (now maxAge maxEntries : Nat)
    (fetchResult : Option Response) (st staticStore : Store)
    (key : String) (dest : Destination) :
    (∀ r, fetchResult = some r →
      handleRequest Strategy.NETWORK_ONLY now maxAge maxEntries fetchResult
          st staticStore key dest
        = (HRes.resp r, cleanupCache st maxEntries)) ∧
    (fetchResult = none →
      handleRequest Strategy.NETWORK_ONLY now maxAge maxEntries fetchResult
          st staticStore key dest
        = (handleOfflineFallback dest staticStore,
           cleanupCache st maxEntries)) := by
  constructor
  · intro r h
    subst h
    rfl
  · intro h
    subst h
    rfl

/-- Claim C8, witness for the amended theorem at a concrete resolved
fetch. -/
theorem networkOnly_behaviour_witness :
    handleRequest Strategy.NETWORK_ONLY 0 0 1 (some netResp) []
        [] "k" Destination.document
      = (HRes.resp netResp, cleanupCache [] 1) :=
  (networkOnly_behaviour 0 0 1 (some netResp) [] [] "k"
    Destination.document).1 netResp rfl

/-- Claim C9: route classification tests the rules in the fixed order
static, models, images, api, html, so the GET URL
https://cdn.example/app/logo.png — whose pathname matches both the
static extension group and the image extension group — is assigned the
static CACHE_FIRST policy targeting the static store, not the image
STALE_WHILE_REVALIDATE policy. -/
theorem route_priority_logo :
    findMatchingRoute logoUrl = ROUTE_static ∧
    staticPattern logoUrl.pathname = true ∧
    imagesPattern logoUrl.pathname = true ∧
    ROUTE_static.strategy = Strategy.CACHE_FIRST ∧
    ROUTE_static.cacheName = STATIC_CACHE ∧
    ROUTE_images.strategy = Strategy.STALE_WHILE_REVALIDATE := by
  refine ⟨by decide, by decide, by decide, rfl, rfl, rfl⟩

/-- Claim C10: in each of CACHE_FIRST, NETWORK_FIRST and
STALE_WHILE_REVALIDATE, a network response whose ok flag is false is
never written: the store is left entirely unchanged. It is returned to
the caller on every path that surfaces the network result: always under
NETWORK_FIRST, under CACHE_FIRST whenever the fetch actually runs
(entry absent, or present but expired), and under
STALE_WHILE_REVALIDATE when no cached entry exists (when one exists,
that strategy returns the cached entry by design, and the non-ok
response is discarded unwritten). -/
theorem non_ok_never_cached (now maxAge : Nat) (st : Store) (key : String)
    (r : Response) (hok : r.ok = false) :
    (cacheFirst now maxAge (some r) st key).store = st ∧
    (lookupStore st key = none →
      cacheFirst now maxAge (some r) st key = ⟨HRes.resp r, st, true⟩) ∧
    (∀ c, lookupStore st key = some c →
      ¬ now - c.swCacheTime.getD 0 ≤ maxAge →
      cacheFirst now maxAge (some r) st key = ⟨HRes.resp r, st, true⟩) ∧
    networkFirst now maxAge (some r) st key = ⟨HRes.resp r, st, true⟩ ∧
    (staleWhileRevalidate now maxAge (some r) st key).store = st ∧
    (lookupStore st key = none →
      (staleWhileRevalidate now maxAge (some r) st key).res = HRes.resp r) ∧
    (∀ c, lookupStore st key = some c →
      (staleWhileRevalidate now maxAge (some r) st key).res = HRes.resp c) := by
  refine ⟨?_, ?_, ?_, ?_, ?_, ?_, ?_⟩
  · cases hc : lookupStore st key with
    | some c =>
        by_cases hage : now - c.swCacheTime.getD 0 ≤ maxAge <;>
          simp [cacheFirst, hc, hage, cacheFirstFetch, hok]
    | none => simp [cacheFirst, hc, cacheFirstFetch, hok]
  · intro hc
    simp [cacheFirst, hc, cacheFirstFetch, hok]
  · intro c hc hage
    simp [cacheFirst, hc, hage, cacheFirstFetch, hok]
  · simp [networkFirst, hok]
  · cases hc : lookupStore st key <;>
      simp [staleWhileRevalidate, hc, hok]
  · intro hc
    simp [staleWhileRevalidate, hc, hok]
  · intro c hc
    simp [staleWhileRevalidate, hc, hok]

/-- Claim C10, witness: a 404 response is returned and not cached under
all three strategies at concrete inputs. -/
theorem non_ok_never_cached_witness :
    (cacheFirst 0 5 (some notFoundResp) [] "k").store = ([] : Store) ∧
    networkFirst 0 5 (some notFoundResp) [("k", cachedHit)] "k"
      = ⟨HRes.resp notFoundResp, [("k", cachedHit)], true⟩ ∧
    (staleWhileRevalidate 0 5 (some notFoundResp) [("k", cachedHit)] "k").res
      = HRes.resp cachedHit :=
  ⟨(non_ok_never_cached 0 5 [] "k" notFoundResp rfl).1,
   (non_ok_never_cached 0 5 [("k", cachedHit)] "k" notFoundResp
      rfl).2.2.2.1,
   ((non_ok_never_cached 0 5 [("k", cachedHit)] "k" notFoundResp
      rfl).2.2.2.2.2.2 cachedHit (by rfl))⟩

end SW
